import Mathlib

/-!
Verification of the sentencepiece driver programs `spm_normalize_main.cc` and
`spm_train_main.cc`.

The drivers are embedded shallowly. The collaborators they call —
`SentencePieceProcessor::Load`, `SentencePieceTrainer::PopulateNormalizerSpec`,
the filesystem line readers and writers, `Normalizer::Normalize` and
`Builder::DecompileCharsMap` — live outside these source files, so they enter
the embedding as abstract function parameters collected in an `Env` record:
every theorem below quantifies over them.  `CHECK_OK` / `LOG(FATAL)` abort the
process with a diagnostic; the embedding renders each abort as an explicit
error value of type `DriverError`, so a driver run is a value of
`Except DriverError DriverOutput`.
-/

/-- Protobuf message `NormalizerSpec` as the drivers use it.  A protobuf
field is unset until a `set_*` call, so each field is an `Option`; a
default-constructed message has every field `none`.  `precompiled_charsmap`
is a byte string, modelled as `List Nat`; its proto accessor yields the
empty byte string when unset. -/
structure NormalizerSpec where
  name : Option String := none
  normalization_rule_tsv : Option String := none
  add_dummy_prefix : Option Bool := none
  escape_whitespaces : Option Bool := none
  remove_extra_whitespaces : Option Bool := none
  precompiled_charsmap : Option (List Nat) := none
deriving DecidableEq, Repr

/-- Command-line flags of `spm_normalize_main.cc` with the default values of
their `STPC_FLAG` declarations (lines 26-39); in particular
`remove_extra_whitespaces` defaults to `true` (line 35). -/
structure NormalizeFlags where
  model : String := ""
  use_internal_normalization : Bool := false
  normalization_rule_name : String := ""
  normalization_rule_tsv : String := ""
  remove_extra_whitespaces : Bool := true
  decompile : Bool := false
  input : String := ""
  output : String := ""
deriving DecidableEq, Repr

/-- Aborts of the normalize driver: `configError` is the `LOG(FATAL)` raised
when no rule source flag is set (lines 75-78); `loadError` stands for any
failed `CHECK_OK` on a collaborator call (model load, spec population,
charsmap decompilation). -/
inductive DriverError where
  | configError : DriverError
  | loadError : DriverError
deriving DecidableEq, Repr

/-- The collaborators outside this file, abstracted.  `loadModelSpec m`
models `sp.Load(m)` followed by `sp.model_proto().normalizer_spec()`
(`none` = load failure).  `populateNormalizerSpec` models
`SentencePieceTrainer::PopulateNormalizerSpec` (`none` = failure).
`readLines f` yields the lines of input stream `f` (the empty name means
stdin).  `normalize` models `Normalizer(spec).Normalize(line)`.
`decompileCharsMap` models `Builder::DecompileCharsMap`, producing the
(source, target) rule pairs of a compiled blob. -/
structure Env where
  loadModelSpec : String → Option NormalizerSpec
  populateNormalizerSpec : NormalizerSpec → Option NormalizerSpec
  readLines : String → List String
  normalize : NormalizerSpec → String → String
  decompileCharsMap : List Nat → Option (List (List Nat × List Nat))

/-- Lines 53-59 of `spm_normalize_main.cc`: when `--input` is empty the
positional arguments left over by flag parsing (`argv[1..]`) become the
input file list; otherwise the list is exactly the one file `--input`
names. -/
def restArgs (flags : NormalizeFlags) (argv : List String) : List String :=
  if flags.input = "" then argv else [flags.input]

/-- Lines 99-101: in normalization mode an empty file list is replaced by
the single sentinel name `""`, which means stdin. -/
def inputFiles (rest : List String) : List String :=
  if rest = [] then [""] else rest

/-- Lines 61-78: rule-source resolution.  A default-constructed spec is
filled from the first non-empty source in the fixed order model flag,
rule-TSV flag, rule-name flag; with all three empty the driver dies
(`LOG(FATAL)`), rendered as `configError`. -/
def resolveSpec (env : Env) (flags : NormalizeFlags) : Except DriverError NormalizerSpec :=
  if flags.model ≠ "" then
    match env.loadModelSpec flags.model with
    | some s => .ok s
    | none => .error .loadError
  else if flags.normalization_rule_tsv ≠ "" then
    match env.populateNormalizerSpec { normalization_rule_tsv := some flags.normalization_rule_tsv } with
    | some s => .ok s
    | none => .error .loadError
  else if flags.normalization_rule_name ≠ "" then
    match env.populateNormalizerSpec { name := some flags.normalization_rule_name } with
    | some s => .ok s
    | none => .error .loadError
  else
    .error .configError

/-- Lines 81-86: unless `--use_internal_normalization` is set, the resolved
spec's boolean flags are overwritten — `add_dummy_prefix` and
`escape_whitespaces` to `false`, `remove_extra_whitespaces` to the value of
the `--remove_extra_whitespaces` flag. -/
def applyFlagOverrides (flags : NormalizeFlags) (spec : NormalizerSpec) : NormalizerSpec :=
  if !flags.use_internal_normalization then
    { spec with add_dummy_prefix := some false,
                escape_whitespaces := some false,
                remove_extra_whitespaces := some flags.remove_extra_whitespaces }
  else spec

/-- What a successful driver run produces: in decompile mode the rule pairs
of the decompiled charsmap together with the output file name they are
saved to as TSV; in normalization mode the sequence of lines written. -/
inductive DriverOutput where
  | decompiled : List (List Nat × List Nat) → String → DriverOutput
  | normalized : List String → DriverOutput
deriving DecidableEq, Repr

/-- Lines 103-110: for each input file in order, each of its lines is
normalized and written, so the written lines are the per-file normalized
line lists concatenated. -/
def normalizeOutputLines (env : Env) (spec : NormalizerSpec) (files : List String) : List String :=
  (files.map (fun f => (env.readLines f).map (env.normalize spec))).flatten

/-- The whole of `main` in `spm_normalize_main.cc` (lines 48-114): build the
input file list, resolve the rule source, apply the flag overrides, then
either decompile the spec's precompiled charsmap to TSV (lines 88-92) or
normalize every input line to the output (lines 93-110). -/
def runNormalizeMain (env : Env) (flags : NormalizeFlags) (argv : List String) :
    Except DriverError DriverOutput :=
  let rest := restArgs flags argv
  match resolveSpec env flags with
  | .error e => .error e
  | .ok spec0 =>
    let spec := applyFlagOverrides flags spec0
    if flags.decompile then
      match env.decompileCharsMap (spec.precompiled_charsmap.getD []) with
      | some cm => .ok (.decompiled cm flags.output)
      | none => .error .loadError
    else
      .ok (.normalized (normalizeOutputLines env spec (inputFiles rest)))

/-- Lines 269-275 of `spm_train_main.cc`: when `--denormalization_rule_tsv`
is non-empty the denormalizer spec gets that TSV and all three boolean
flags set to `false`; otherwise it stays default-constructed with no field
set. -/
def makeDenormalizerSpec (denormalization_rule_tsv : String) : NormalizerSpec :=
  if denormalization_rule_tsv ≠ "" then
    { normalization_rule_tsv := some denormalization_rule_tsv,
      add_dummy_prefix := some false,
      remove_extra_whitespaces := some false,
      escape_whitespaces := some false }
  else {}

/-- A concrete environment for counterexamples and witnesses: every model
loads as the empty spec, population succeeds unchanged, every input stream
is empty, normalization is the identity, decompilation yields no rules. -/
def envA : Env :=
  { loadModelSpec := fun _ => some {},
    populateNormalizerSpec := fun s => some s,
    readLines := fun _ => [],
    normalize := fun _ l => l,
    decompileCharsMap := fun _ => some [] }

/-- Flags supplying two rule sources at once (model and rule TSV), with
every other flag at its default — in particular
`use_internal_normalization` is `false`. -/
def flagsBoth : NormalizeFlags :=
  { model := "m.model", normalization_rule_tsv := "rules.tsv" }

/-- Flags selecting the model as rule source with "as trained" operation
requested (`--use_internal_normalization`). -/
def flagsTrained : NormalizeFlags :=
  { model := "m.model", use_internal_normalization := true }

/-- Flags selecting the model as rule source and decompile mode. -/
def flagsDecomp : NormalizeFlags :=
  { model := "m.model", decompile := true }

/-- Mapping a function over every line of every file and then concatenating
equals concatenating first and mapping once: the driver's nested
per-file/per-line loop processes exactly the concatenated line sequence. -/
theorem normalizeOutputLines_eq_flatten_map (env : Env) (spec : NormalizerSpec)
    (files : List String) :
    normalizeOutputLines env spec files =
      ((files.map env.readLines).flatten).map (env.normalize spec) := by
  unfold normalizeOutputLines
  induction files with
  | nil => rfl
  | cons a t ih => simp only [List.map_cons, List.flatten_cons, List.map_append, ih]

/-- C1 counterexample: with both a model and a rule TSV supplied and
`use_internal_normalization` left `false`, the driver does not fail with a
configuration error — it resolves the spec from the model and runs to
completion. -/
theorem two_sources_resolve_succeeds :
    runNormalizeMain envA flagsBoth [] = .ok (.normalized []) ∧
    resolveSpec envA flagsBoth ≠ .error .configError := by
  constructor
  · rfl
  · rw [show resolveSpec envA flagsBoth = Except.ok {} from rfl]
    simp

/-- C1 (amended): supplying more than one rule source among model, rule TSV
and rule name is not a configuration error; the driver silently resolves
from the highest-priority source present (model first, then TSV, then
name). -/
theorem multi_source_no_config_error (env : Env) (flags : NormalizeFlags)
    (h : (flags.model ≠ "" ∧ flags.normalization_rule_tsv ≠ "") ∨
         (flags.model ≠ "" ∧ flags.normalization_rule_name ≠ "") ∨
         (flags.normalization_rule_tsv ≠ "" ∧ flags.normalization_rule_name ≠ "")) :
    resolveSpec env flags ≠ .error .configError := by
  unfold resolveSpec
  split_ifs with h1 h2 h3
  · split <;> simp
  · split <;> simp
  · split <;> simp
  · tauto

/-- C1 witness: the amended theorem applied to the model-plus-TSV flags. -/
theorem multi_source_no_config_error_witness :
    resolveSpec envA flagsBoth ≠ .error .configError :=
  multi_source_no_config_error envA flagsBoth (Or.inl ⟨by decide, by decide⟩)

/-- C2: with all three rule-source flags empty, resolution fails with the
configuration error and the whole driver run fails with it too — no engine
is built and no default rule set is substituted. -/
theorem no_source_config_error (env : Env) (flags : NormalizeFlags)
    (argv : List String)
    (h1 : flags.model = "") (h2 : flags.normalization_rule_tsv = "")
    (h3 : flags.normalization_rule_name = "") :
    resolveSpec env flags = .error .configError ∧
    runNormalizeMain env flags argv = .error .configError := by
  have hr : resolveSpec env flags = .error .configError := by
    unfold resolveSpec
    simp [h1, h2, h3]
  exact ⟨hr, by unfold runNormalizeMain; rw [hr]⟩

/-- C2 witness: all-default flags supply no rule source. -/
theorem no_source_config_error_witness :
    resolveSpec envA {} = .error .configError ∧
    runNormalizeMain envA {} [] = .error .configError :=
  no_source_config_error envA {} [] rfl rfl rfl

/-- C3 counterexample: with every flag at its default (so the caller
overrides nothing and `use_internal_normalization` is `false`), the
engine's `remove_extra_whitespaces` is `true`, not the neutral `false` the
claim states — the `--remove_extra_whitespaces` flag defaults to `true`. -/
theorem default_flags_not_neutral :
    (applyFlagOverrides {} {}).remove_extra_whitespaces = some true ∧
    (applyFlagOverrides {} {}).remove_extra_whitespaces ≠ some false := by
  decide

/-- C3 (amended): when `use_internal_normalization` is `false` the engine
gets `add_dummy_prefix = false` and `escape_whitespaces = false`, while
`remove_extra_whitespaces` is set to the value of the
`--remove_extra_whitespaces` flag, whose default is `true`. -/
theorem external_flag_overrides (flags : NormalizeFlags) (spec : NormalizerSpec)
    (h : flags.use_internal_normalization = false) :
    NormalizerSpec.add_dummy_prefix (applyFlagOverrides flags spec) = some false ∧
    (applyFlagOverrides flags spec).escape_whitespaces = some false ∧
    (applyFlagOverrides flags spec).remove_extra_whitespaces
      = some flags.remove_extra_whitespaces ∧
    NormalizeFlags.remove_extra_whitespaces {} = true := by
  unfold applyFlagOverrides
  simp [h]

/-- C3 witness: the amended theorem applied to all-default flags and the
empty spec. -/
theorem external_flag_overrides_witness :
    NormalizerSpec.add_dummy_prefix (applyFlagOverrides {} {}) = some false ∧
    (applyFlagOverrides ({} : NormalizeFlags) {}).escape_whitespaces = some false ∧
    (applyFlagOverrides ({} : NormalizeFlags) {}).remove_extra_whitespaces
      = some (NormalizeFlags.remove_extra_whitespaces {}) ∧
    NormalizeFlags.remove_extra_whitespaces {} = true :=
  external_flag_overrides {} {} rfl

/-- C4: rule-source priority.  A non-empty model flag wins: whatever the
TSV and name flags hold, the resolved spec is the one loaded from the
model.  With the model flag empty, a non-empty TSV flag wins over the name
flag: the resolved spec is the populated TSV spec. -/
theorem source_priority (env : Env) (flags : NormalizeFlags) :
    (∀ s : NormalizerSpec, flags.model ≠ "" →
        env.loadModelSpec flags.model = some s →
        resolveSpec env flags = .ok s) ∧
    (∀ s : NormalizerSpec, flags.model = "" →
        flags.normalization_rule_tsv ≠ "" →
        env.populateNormalizerSpec
            { normalization_rule_tsv := some flags.normalization_rule_tsv } = some s →
        resolveSpec env flags = .ok s) := by
  constructor
  · intro s hm hload
    unfold resolveSpec
    simp [hm, hload]
  · intro s hm ht hpop
    unfold resolveSpec
    simp [hm, ht, hpop]

/-- C4 witness: with model and TSV both supplied the model's spec is taken;
with only the TSV supplied the populated TSV spec is taken. -/
theorem source_priority_witness :
    resolveSpec envA flagsBoth = .ok {} ∧
    resolveSpec envA { normalization_rule_tsv := "rules.tsv" }
      = .ok { normalization_rule_tsv := some "rules.tsv" } :=
  ⟨(source_priority envA flagsBoth).1 {} (by decide) rfl,
   (source_priority envA { normalization_rule_tsv := "rules.tsv" }).2
     { normalization_rule_tsv := some "rules.tsv" } rfl (by decide) rfl⟩

/-- C5: in "as trained" mode with a model supplied, the spec the engine is
constructed from is exactly the model's spec: resolution returns it and
the flag-override step leaves every field unchanged. -/
theorem as_trained_spec_unchanged (env : Env) (flags : NormalizeFlags)
    (s : NormalizerSpec)
    (hint : flags.use_internal_normalization = true)
    (hm : flags.model ≠ "") (hload : env.loadModelSpec flags.model = some s) :
    resolveSpec env flags = .ok s ∧ applyFlagOverrides flags s = s := by
  constructor
  · unfold resolveSpec
    simp [hm, hload]
  · unfold applyFlagOverrides
    simp [hint]

/-- C5 witness: the theorem applied to the "as trained" flags. -/
theorem as_trained_spec_unchanged_witness :
    resolveSpec envA flagsTrained = .ok {} ∧
    applyFlagOverrides flagsTrained {} = {} :=
  as_trained_spec_unchanged envA flagsTrained {} rfl (by decide) rfl

/-- C6: in decompile mode the driver's output is the rule table decompiled
from the resolved spec's precompiled charsmap, saved as TSV to the output
file — and no input line is read or normalized: the run's result is the
same whatever the line reader and the normalizer are. -/
theorem decompile_mode_no_normalization (env : Env) (flags : NormalizeFlags)
    (argv : List String) (s : NormalizerSpec) (cm : List (List Nat × List Nat))
    (hd : flags.decompile = true)
    (hres : resolveSpec env flags = .ok s)
    (hdec : env.decompileCharsMap
        ((applyFlagOverrides flags s).precompiled_charsmap.getD []) = some cm) :
    runNormalizeMain env flags argv = .ok (.decompiled cm flags.output) ∧
    ∀ (rl : String → List String) (nz : NormalizerSpec → String → String),
      runNormalizeMain { env with readLines := rl, normalize := nz } flags argv
        = .ok (.decompiled cm flags.output) := by
  have key : ∀ (rl : String → List String) (nz : NormalizerSpec → String → String),
      runNormalizeMain { env with readLines := rl, normalize := nz } flags argv
        = .ok (.decompiled cm flags.output) := by
    intro rl nz
    have hres2 : resolveSpec { env with readLines := rl, normalize := nz } flags
        = .ok s := hres
    unfold runNormalizeMain
    rw [hres2]
    simp [hd, hdec]
  exact ⟨key env.readLines env.normalize, key⟩

/-- C6 witness: the theorem applied to the decompile-mode flags. -/
theorem decompile_mode_no_normalization_witness :
    runNormalizeMain envA flagsDecomp [] = .ok (.decompiled [] "") :=
  (decompile_mode_no_normalization envA flagsDecomp [] {} [] rfl rfl rfl).1

/-- C7: in normalization mode the driver writes exactly the input lines
(all lines of all input files, in order) mapped one-for-one through the
engine's normalizer: as many output lines as input lines, and the i-th
output line is the normalization of the i-th input line. -/
theorem normalize_mode_line_map (env : Env) (flags : NormalizeFlags)
    (argv : List String) (s : NormalizerSpec) (lines : List String)
    (hd : flags.decompile = false)
    (hres : resolveSpec env flags = .ok s)
    (hlines : lines = ((inputFiles (restArgs flags argv)).map env.readLines).flatten) :
    runNormalizeMain env flags argv
      = .ok (.normalized (lines.map (env.normalize (applyFlagOverrides flags s)))) ∧
    (lines.map (env.normalize (applyFlagOverrides flags s))).length = lines.length ∧
    ∀ i : Nat, (lines.map (env.normalize (applyFlagOverrides flags s)))[i]?
        = (lines[i]?).map (env.normalize (applyFlagOverrides flags s)) := by
  refine ⟨?_, by simp, fun i => by simp⟩
  unfold runNormalizeMain
  rw [hres]
  simp [hd, hlines, normalizeOutputLines_eq_flatten_map]

/-- C7 witness: the theorem applied to a concrete model-sourced run whose
input streams are all empty. -/
theorem normalize_mode_line_map_witness :
    runNormalizeMain envA flagsBoth []
      = .ok (.normalized (List.map (envA.normalize (applyFlagOverrides flagsBoth {})) [])) :=
  (normalize_mode_line_map envA flagsBoth [] {} [] rfl rfl rfl).1

/-- C8: a non-empty `--input` flag makes the input file list exactly the
one file it names, whatever positional arguments were given; with `--input`
empty the positional arguments are the input file list. -/
theorem input_flag_overrides_positional (flags : NormalizeFlags) (argv : List String) :
    (flags.input ≠ "" → restArgs flags argv = [flags.input]) ∧
    (flags.input = "" → restArgs flags argv = argv) := by
  unfold restArgs
  constructor <;> intro h <;> simp [h]

/-- C8 witness: positional arguments are dropped when `--input` is set and
kept when it is not. -/
theorem input_flag_overrides_positional_witness :
    restArgs { input := "in.txt" } ["a.txt", "b.txt"] = ["in.txt"] ∧
    restArgs {} ["a.txt", "b.txt"] = ["a.txt", "b.txt"] :=
  ⟨(input_flag_overrides_positional { input := "in.txt" } ["a.txt", "b.txt"]).1 (by decide),
   (input_flag_overrides_positional {} ["a.txt", "b.txt"]).2 rfl⟩

/-- C9: with `--input` empty and no positional argument, the input file
list becomes the single stdin sentinel `""`; and whatever the rest
arguments are, the file list the normalization loop runs over is never
empty. -/
theorem stdin_sentinel (flags : NormalizeFlags) (argv : List String)
    (h : flags.input = "") (h2 : argv = []) :
    inputFiles (restArgs flags argv) = [""] ∧
    ∀ rest : List String, inputFiles rest ≠ [] := by
  constructor
  · subst h2
    unfold inputFiles restArgs
    simp [h]
  · intro rest
    by_cases hr : rest = []
    · simp [inputFiles, hr]
    · simp [inputFiles, hr]

/-- C9 witness: the theorem applied to all-default flags and no positional
arguments. -/
theorem stdin_sentinel_witness :
    inputFiles (restArgs {} []) = [""] :=
  (stdin_sentinel {} [] rfl rfl).1

/-- C10: in the training driver, a supplied denormalization TSV yields a
denormalizer spec with that TSV and `add_dummy_prefix`,
`remove_extra_whitespaces` and `escape_whitespaces` all `false` (no other
field set); with no TSV supplied the denormalizer spec stays
default-constructed with no field set at all. -/
theorem denormalizer_spec_fields (tsv : String) :
    (tsv ≠ "" → makeDenormalizerSpec tsv =
        { normalization_rule_tsv := some tsv,
          add_dummy_prefix := some false,
          remove_extra_whitespaces := some false,
          escape_whitespaces := some false }) ∧
    (tsv = "" → makeDenormalizerSpec tsv = {}) := by
  unfold makeDenormalizerSpec
  constructor <;> intro h <;> simp [h]

/-- C10 witness: both cases of the theorem at concrete TSV values. -/
theorem denormalizer_spec_fields_witness :
    makeDenormalizerSpec "d.tsv" =
      { normalization_rule_tsv := some "d.tsv",
        add_dummy_prefix := some false,
        remove_extra_whitespaces := some false,
        escape_whitespaces := some false } ∧
    makeDenormalizerSpec "" = {} :=
  ⟨(denormalizer_spec_fields "d.tsv").1 (by decide),
   (denormalizer_spec_fields "").2 rfl⟩
